import Mathlib

/-!
# react-cosmos: development server glue (`server/shared/server.js`)

A shallow embedding of `packages/react-cosmos/src/server/shared/server.js`
and of the scenario exercised by
`packages/react-cosmos-playground2/src/plugins/RendererMessageHandler/__tests__/fixtureListResponseSelectedFixture.js`.

JavaScript strings are embedded as Lean `String`s, JavaScript values of
unknown shape as `JsValue`, and the Express application object as the list
of layers registered on it, in registration order.  A request goes through
that list from the oldest layer on until one answers; registering a layer can
throw.  What Express, its path patterns and the file system decide beyond
that is gathered in `Host`.
-/

namespace Cosmos

/-! ## JavaScript values -/

/-- A JavaScript value, as far as the server code inspects one: it tests
truthiness (`httpProxy`, `next`) and strict equality with a string literal
(`platform === 'web'`).  Objects are kept as references. -/
inductive JsValue where
  | undefined
  | null
  | bool (b : Bool)
  | number (n : Int)
  | nan
  | string (s : String)
  | object (ref : Nat)
  deriving DecidableEq, Repr

namespace JsValue

/-- JavaScript `ToBoolean`: `undefined`, `null`, `false`, `0`, `NaN` and the
empty string are falsy, everything else is truthy. -/
def truthy : JsValue → Bool
  | undefined => false
  | null => false
  | bool b => b
  | number n => n != 0
  | nan => false
  | string s => s != ""
  | object _ => true

/-- Strict equality `v === 'lit'` against a string literal. -/
def strictEqString : JsValue → String → Bool
  | string s, lit => s == lit
  | _, _ => false

end JsValue

/-! ## `getRootUrl` -/

/-- Source `getRootUrl(publicUrl)`:
`return publicUrl === './' ? '/' : publicUrl;` -/
def getRootUrl (publicUrl : String) : String :=
  if publicUrl = "./" then "/" else publicUrl

/-- A path "begins with `/`": its first character is the slash. -/
def beginsWithSlash (s : String) : Bool :=
  match s.data with
  | c :: _ => c == '/'
  | [] => false

/-! ## Requests, responses and the Express application -/

/-- An incoming HTTP request as the handlers of `server.js` see it.  `query`
is the parsed query string (`req.query`), an object from keys to values. -/
structure Request where
  method : String
  path : String
  query : List (String × JsValue)
  deriving DecidableEq, Repr

/-- Property read `req.query.<key>`: the value stored under `key`, or
`undefined` when the query has no such key. -/
def Request.queryParam (req : Request) (key : String) : JsValue :=
  match req.query.lookup key with
  | some v => v
  | none => JsValue.undefined

/-- What a handler or middleware does with a request, one entry per call it
makes, in program order. -/
inductive Effect where
  /-- Call `launchEditor(fileName, lineNumber)` from `react-dev-utils`. -/
  | launchEditor (fileName lineNumber : JsValue)
  /-- Call `res.send(body)`. -/
  | send (body : String)
  /-- Call `res.sendFile(path)`. -/
  | sendFile (path : String)
  /-- Call `res.end(chunk)`; `res.end()` without an argument has no chunk. -/
  | endResponse (chunk : Option String)
  /-- The static middleware streams the file at `path` as the response. -/
  | staticFile (path : String)
  /-- The static middleware answers a directory requested as `fromPath`,
  without a trailing slash, by a redirect to that path followed by `/`. -/
  | redirectToSlash (fromPath : String)
  deriving DecidableEq, Repr

/-- The `index` option of `express.static`: left out (the default, which
serves `index.html` for a directory), `false` (no directory index), or the
names of the index files to try. -/
inductive IndexOption where
  | default
  | disabled
  | names (files : List String)
  deriving DecidableEq, Repr

/-- The options object handed to `express.static`; `server.js` sets `index`. -/
structure StaticOptions where
  index : IndexOption
  deriving DecidableEq, Repr

/-- Middleware values the server mounts with `app.use`. -/
inductive Middleware where
  /-- The value of `express.static(root, options)`. -/
  | static (root : String) (options : StaticOptions)
  deriving DecidableEq, Repr

/-- One entry of the application's middleware stack. -/
inductive Layer where
  /-- Registered by `app.use(path, middleware)`. -/
  | use (path : String) (middleware : Middleware)
  /-- Registered by `app.get(path, handler)`. -/
  | get (path : String) (handler : Request → List Effect)
  /-- A layer registered by code outside `server.js` (the proxy delegate, or
  whatever an application handed in already carries): what it does with a
  request, and the request it hands to `next()` when it calls it. -/
  | foreign (run : Request → List Effect × Option Request)

/-- The Express application object: the layers registered on it so far, the
oldest first.  The layers Express installs by itself (query parsing and request
set-up) are not listed. -/
structure App where
  stack : List Layer

/-- Source `express()`: a new application with nothing registered. -/
def express : App :=
  { stack := [] }

/-- Method `app.get(path, handler)`: appends a GET route.  The paths
`server.js` registers routes for are literals without pattern syntax, which
Express always accepts. -/
def App.get (app : App) (path : String) (handler : Request → List Effect) : App :=
  { stack := app.stack ++ [Layer.get path handler] }

/-- The paths of the GET routes of a stack, in registration order. -/
def getRoutePaths : List Layer → List String
  | [] => []
  | Layer.get path _ :: rest => path :: getRoutePaths rest
  | _ :: rest => getRoutePaths rest

/-! ## Express routing and the static middleware -/

/-- What `fs.stat` reports for a path: a file, a directory, or nothing
there. -/
inductive FileStat where
  | file
  | directory
  | missing
  deriving DecidableEq, Repr

/-- The parts of Express, of its path patterns and of the file system that
`server.js` relies on and does not define. -/
structure Host where
  /-- Whether a path that uses pattern syntax compiles to a route pattern;
  `app.use` and `app.get` throw when it does not. -/
  patternCompiles : String → Bool
  /-- Whether a route pattern that uses pattern syntax matches a request
  path. -/
  patternMatches : String → String → Bool
  /-- For a middleware mounted at a path other than `/`: the request path as
  the middleware sees it, with the mount path stripped, or `none` when the
  request is not under the mount path. -/
  mountRest : String → String → Option String
  /-- The file-system path the static middleware looks up for a request path
  inside its root, or `none` when it refuses the path. -/
  staticTarget : String → String → Option String
  /-- Node `path.join`. -/
  join : String → String → String
  /-- Node `fs.stat`. -/
  stat : String → FileStat

/-- An exception thrown while a layer is registered. -/
inductive ServerError where
  /-- Thrown by `express.static(root)` for an empty root:
  `TypeError: root path required`. -/
  | rootPathRequired
  /-- Thrown when the path handed to `app.use` does not compile. -/
  | invalidPath (path : String)
  deriving DecidableEq, Repr

/-- Whether a path is free of pattern syntax: letters, digits, `/`, `.`, `_`
and `-` stand for themselves in an Express path. -/
def isLiteralPath (path : String) : Bool :=
  path.data.all (fun c => c.isAlphanum || c == '/' || c == '.' || c == '_' || c == '-')

/-- Whether Express accepts a path to mount or route on. -/
def pathCompiles (host : Host) (path : String) : Bool :=
  isLiteralPath path || host.patternCompiles path

/-- Source `express.static(root, options)`: throws for an empty root. -/
def expressStatic (root : String) (options : StaticOptions) : Except ServerError Middleware :=
  if root = "" then Except.error ServerError.rootPathRequired
  else Except.ok (Middleware.static root options)

/-- Method `app.use(path, middleware)`: appends a middleware layer, or throws
and leaves the application as it is when the path does not compile. -/
def App.use (host : Host) (app : App) (path : String) (middleware : Middleware) :
    Except ServerError App :=
  if pathCompiles host path then
    Except.ok { stack := app.stack ++ [Layer.use path middleware] }
  else Except.error (ServerError.invalidPath path)

/-- A path with one trailing `/` removed, if it has one. -/
def dropTrailingSlash (path : List Char) : List Char :=
  match path.reverse with
  | '/' :: rest => rest.reverse
  | _ => path

/-- Whether a route registered for `pattern` matches a request path.  With
the defaults of Express a literal pattern matches without regard to letter
case and with or without a trailing slash. -/
def routeMatches (host : Host) (pattern path : String) : Bool :=
  if isLiteralPath pattern then
    let wanted := (dropTrailingSlash pattern.data).map Char.toLower
    let given := path.data.map Char.toLower
    given == wanted || given == wanted ++ ['/']
  else host.patternMatches pattern path

/-- Whether a GET route takes a request method: Express hands HEAD requests
to the GET route as well. -/
def handlesGet (method : String) : Bool :=
  method == "GET" || method == "HEAD"

/-- The request path a middleware mounted at `mount` sees; a middleware
mounted at `/` sees every request, with its path as it is. -/
def mountRest (host : Host) (mount path : String) : Option String :=
  if mount = "/" then some path else host.mountRest mount path

/-- Whether a request path ends in `/`. -/
def hasTrailingSlash (path : String) : Bool :=
  match path.data.reverse with
  | c :: _ => c == '/'
  | [] => false

/-- The index files the static middleware tries for a directory. -/
def indexNames : IndexOption → List String
  | IndexOption.default => ["index.html"]
  | IndexOption.disabled => []
  | IndexOption.names files => files

/-- The static middleware answering a directory request from the index files:
it streams the first one that is a file, and passes the request on when there
is none. -/
def sendIndex (host : Host) (directory : String) : List String → Option (List Effect)
  | [] => none
  | name :: rest =>
    match host.stat (host.join directory name) with
    | FileStat.file => some [Effect.staticFile (host.join directory name)]
    | _ => sendIndex host directory rest

/-- The middleware `express.static(root, options)` on a request: `none` when
it calls `next()`, otherwise what it answers.  It passes on methods other than
GET and HEAD and paths it finds nothing for; it streams a file; for a directory
it tries the index files when the path ends in `/` and there are any, passes
the request on when the path ends in `/` and there are none, and redirects to
the path with a trailing slash otherwise. -/
def serveStatic (host : Host) (root : String) (options : StaticOptions)
    (req : Request) (urlPath : String) : Option (List Effect) :=
  if req.method ≠ "GET" ∧ req.method ≠ "HEAD" then none
  else
    match host.staticTarget root urlPath with
    | none => none
    | some target =>
      if indexNames options.index ≠ [] ∧ hasTrailingSlash urlPath then
        sendIndex host target (indexNames options.index)
      else
        match host.stat target with
        | FileStat.file => some [Effect.staticFile target]
        | FileStat.directory =>
          if hasTrailingSlash urlPath then none else some [Effect.redirectToSlash req.path]
        | FileStat.missing => none

/-- One layer on a request: what it does, and the request it hands to
`next()`, if it calls it.  The handlers of `server.js` answer and never call
`next()`. -/
def Layer.run (host : Host) : Layer → Request → List Effect × Option Request
  | Layer.get pattern handler, req =>
    if handlesGet req.method && routeMatches host pattern req.path then (handler req, none)
    else ([], some req)
  | Layer.use mount (Middleware.static root options), req =>
    match mountRest host mount req.path with
    | none => ([], some req)
    | some rest =>
      match serveStatic host root options req rest with
      | some effects => (effects, none)
      | none => ([], some req)
  | Layer.foreign run, req => run req

/-- A request going through a stack, the oldest layer first, until a layer
answers: what the layers did, and the request left over when none answered. -/
def runStack (host : Host) : List Layer → Request → List Effect × Option Request
  | [], req => ([], some req)
  | layer :: rest, req =>
    match layer.run host req with
    | (effects, none) => (effects, none)
    | (effects, some passed) =>
      (effects ++ (runStack host rest passed).1, (runStack host rest passed).2)

/-- What the application does with a request. -/
def App.handle (host : Host) (app : App) (req : Request) : List Effect × Option Request :=
  runStack host app.stack req

/-! ## Configuration and collaborators -/

/-- The fields of the Cosmos `Config` that `createServerApp` reads. -/
structure Config where
  next : JsValue
  httpProxy : JsValue
  deriving DecidableEq, Repr

/-- The `PlaygroundOpts` object: the two fields `createServerApp` reads, and
the remaining ones, which it only passes on. -/
structure PlaygroundOpts where
  platform : JsValue
  loaderUri : JsValue
  others : List (String × JsValue)
  deriving DecidableEq, Repr

/-- The object literal handed to `getPlaygroundHtmlNext`. -/
structure PlaygroundNextOpts where
  rendererPreviewUrl : JsValue
  enableRemoteRenderers : Bool
  deriving DecidableEq, Repr

/-- The functions and ambient values `server.js` imports or reads, none of
which it defines: `./playground-html`, `./http-proxy`, `require.resolve`,
`path.join`, `path.relative`, `__dirname` and `process.cwd()`. -/
structure Env where
  getPlaygroundHtml : PlaygroundOpts → String
  getPlaygroundHtmlNext : PlaygroundNextOpts → String
  setupHttpProxy : App → JsValue → App
  requireResolve : String → String
  join : String → String → String
  relative : String → String → String
  dirname : String
  cwd : String

/-- A call `server.js` makes to one of its collaborators outside a request
handler, with the arguments it passes. -/
inductive Call where
  | setupHttpProxy (app : App) (httpProxy : JsValue)
  | getPlaygroundHtml (opts : PlaygroundOpts)
  | getPlaygroundHtmlNext (opts : PlaygroundNextOpts)
  | consoleLog (message : String)

/-- The argument of a call if it is a `setupHttpProxy` call. -/
def Call.proxySetup? : Call → Option (App × JsValue)
  | Call.setupHttpProxy app httpProxy => some (app, httpProxy)
  | _ => none

/-- Whether a call computes the playground HTML. -/
def Call.isPlaygroundHtml : Call → Bool
  | Call.getPlaygroundHtml _ => true
  | Call.getPlaygroundHtmlNext _ => true
  | _ => false

/-- The state a function of `server.js` leaves behind: the application and
the collaborator calls it made, in order. -/
structure Outcome where
  app : App
  calls : List Call

/-! ## `server.js` -/

/-- Source `createServerApp({ cosmosConfig, playgroundOpts })`. -/
def createServerApp (env : Env) (cosmosConfig : Config) (playgroundOpts : PlaygroundOpts) :
    Outcome :=
  let next := cosmosConfig.next
  let httpProxy := cosmosConfig.httpProxy
  let app := express
  -- if (httpProxy) { setupHttpProxy(app, httpProxy); }
  let proxied : Outcome :=
    if httpProxy.truthy then
      { app := env.setupHttpProxy app httpProxy, calls := [Call.setupHttpProxy app httpProxy] }
    else
      { app := app, calls := [] }
  -- const playgroundHtml = next ? getPlaygroundHtmlNext({...}) : getPlaygroundHtml(playgroundOpts);
  let html : String × Call :=
    if next.truthy then
      let opts : PlaygroundNextOpts :=
        { rendererPreviewUrl :=
            if playgroundOpts.platform.strictEqString "web" then playgroundOpts.loaderUri
            else JsValue.null,
          enableRemoteRenderers := true }
      (env.getPlaygroundHtmlNext opts, Call.getPlaygroundHtmlNext opts)
    else
      (env.getPlaygroundHtml playgroundOpts, Call.getPlaygroundHtml playgroundOpts)
  let playgroundHtml := html.1
  let app := proxied.app.get "/" (fun _req => [Effect.send playgroundHtml])
  let app := app.get "/_playground.js" (fun _req =>
    [Effect.sendFile (env.requireResolve
      (if next.truthy then "react-cosmos-playground2" else "react-cosmos-playground"))])
  let app := app.get "/_cosmos.ico" (fun _req =>
    [Effect.sendFile (env.join env.dirname "static/favicon.ico")])
  { app := app, calls := proxied.calls ++ [html.2] }

/-- What a call of `serveStaticDir` leaves behind: the collaborator calls it
made, and the application with the new layer, or the exception thrown. -/
structure Attempt where
  calls : List Call
  result : Except ServerError App

/-- Source `serveStaticDir(app, publicUrl, publicPath)`.  The arguments of
`app.use` are evaluated before the call: `getRootUrl(publicUrl)`, then
`express.static(publicPath, { index: false })`. -/
def serveStaticDir (env : Env) (host : Host) (app : App) (publicUrl publicPath : String) :
    Attempt :=
  let relPublicPath := env.relative env.cwd publicPath
  { calls := [Call.consoleLog ("[Cosmos] Serving static files from " ++ relPublicPath)],
    result :=
      let rootUrl := getRootUrl publicUrl
      match expressStatic publicPath { index := IndexOption.disabled } with
      | Except.error err => Except.error err
      | Except.ok middleware => app.use host rootUrl middleware }

/-- Source `attachStackFrameEditorLauncher(app)`. -/
def attachStackFrameEditorLauncher (app : App) : App :=
  app.get "/__open-stack-frame-in-editor" (fun req =>
    [Effect.launchEditor (req.queryParam "fileName") (req.queryParam "lineNumber"),
     Effect.endResponse none])

/-! ## The RendererMessageHandler plugin and its integration test -/

/-- The `urlParams` plugin state (owned by the Router plugin); the test sets
`{ fixturePath: 'fixtures/zwei.js' }`. -/
structure UrlParams where
  fixturePath : Option String
  deriving DecidableEq, Repr

/-- The state kept per renderer; `fixtureState` is an object or `null`. -/
structure RendererItemState where
  fixtures : List String
  fixtureState : JsValue
  deriving DecidableEq, Repr

/-- The `renderers` plugin state, as the test sets it:
`{ primaryRendererId, renderers: { [rendererId]: rendererState } }`. -/
structure RenderersState where
  primaryRendererId : Option String
  renderers : List (String × RendererItemState)
  deriving DecidableEq, Repr

/-- The plugin states the handler reads. -/
structure PluginState where
  urlParams : UrlParams
  renderers : RenderersState
  deriving DecidableEq, Repr

/-- The payload of a `selectFixture` renderer request. -/
structure SelectFixturePayload where
  rendererId : String
  fixturePath : String
  fixtureState : JsValue
  deriving DecidableEq, Repr

/-- A message posted on the `renderer.request` event. -/
inductive RendererRequest where
  | selectFixture (payload : SelectFixturePayload)
  deriving DecidableEq, Repr

/-- A message emitted on the `renderer.response` event; the test emits the
fixture-list response of a renderer. -/
inductive RendererResponse where
  | fixtureList (rendererId : String) (fixtures : List String)
  deriving DecidableEq, Repr

/-- Modelled from the spec: the plugin state before any `SetPluginState`; the
plugins' own initial state is not among the source files.  No fixture path is
selected and no renderer is recorded. -/
def initialPluginState : PluginState :=
  { urlParams := { fixturePath := none },
    renderers := { primaryRendererId := none, renderers := [] } }

/-- Modelled from the spec: the fixture state of the primary renderer in the
`renderers` plugin state, `null` when there is no primary renderer or nothing
is recorded for it.  The plugin source is not among the source files; the
test expects `mockFixtureState` of the primary `foo-renderer` and `null` for
an empty state. -/
def primaryFixtureState (renderers : RenderersState) : JsValue :=
  match renderers.primaryRendererId with
  | none => JsValue.null
  | some primaryRendererId =>
    match renderers.renderers.lookup primaryRendererId with
    | some rendererState => rendererState.fixtureState
    | none => JsValue.null

/-- Modelled from the spec: the `renderer.response` handler of the
RendererMessageHandler plugin, of which only the integration test is among
the source files.  On a fixture-list response, while a fixture path is
selected in `urlParams`, it posts one `selectFixture` request for the
responding renderer; the result lists the `renderer.request` messages
posted. -/
def handleRendererResponse (state : PluginState) : RendererResponse → List RendererRequest
  | RendererResponse.fixtureList rendererId _fixtures =>
    match state.urlParams.fixturePath with
    | none => []
    | some fixturePath =>
      [RendererRequest.selectFixture
        { rendererId := rendererId,
          fixturePath := fixturePath,
          fixtureState := primaryFixtureState state.renderers }]

/-- The children the test renders inside the playground, apart from the
`OnEvent` listener whose calls `renderPlayground` reports. -/
inductive TestNode where
  /-- Element `<SetPluginState stateKey="urlParams" value={...} />`. -/
  | setUrlParams (value : UrlParams)
  /-- Element `<SetPluginState stateKey="renderers" value={...} />`. -/
  | setRenderers (value : RenderersState)
  /-- Element `<EmitEvent eventName="renderer.response" args={[...]} />`. -/
  | emitRendererResponse (message : RendererResponse)
  deriving DecidableEq, Repr

/-- One test node applied to the plugin state and to the calls received so
far by the `renderer.request` listener. -/
def TestNode.apply : PluginState × List RendererRequest → TestNode →
    PluginState × List RendererRequest
  | (state, received), TestNode.setUrlParams value =>
    ({ state with urlParams := value }, received)
  | (state, received), TestNode.setRenderers value =>
    ({ state with renderers := value }, received)
  | (state, received), TestNode.emitRendererResponse message =>
    (state, received ++ handleRendererResponse state message)

/-- Source `renderPlayground(otherNodes)` of the test, read as the calls the
mock `handleRendererRequest` has received once the nodes have taken effect in
order. -/
def renderPlayground (otherNodes : List TestNode) : List RendererRequest :=
  (otherNodes.foldl TestNode.apply (initialPluginState, [])).2

/-- Test helper `getFixtureListResponse(rendererId)`; its fixture list is a
parameter, the helper not being among the source files. -/
def getFixtureListResponse (fixtures : List String) (rendererId : String) : RendererResponse :=
  RendererResponse.fixtureList rendererId fixtures

/-- Test helper `getRendererState({ fixtureState })`; its fixture list is a
parameter, the helper not being among the source files. -/
def getRendererState (fixtures : List String) (fixtureState : JsValue) : RendererItemState :=
  { fixtures := fixtures, fixtureState := fixtureState }

/-- The nodes of the test `posts "selectFixture" renderer request`. -/
def testSelectFixture (fixtures : List String) : List TestNode :=
  [TestNode.setUrlParams { fixturePath := some "fixtures/zwei.js" },
   TestNode.emitRendererResponse (getFixtureListResponse fixtures "foo-renderer")]

/-- The nodes of the test `posts "selectFixture" renderer request with fixture
state of primary renderer`. -/
def testSelectFixturePrimary (fixtures : List String) (mockFixtureState : JsValue) :
    List TestNode :=
  [TestNode.setUrlParams { fixturePath := some "fixtures/zwei.js" },
   TestNode.setRenderers
     { primaryRendererId := some "foo-renderer",
       renderers := [("foo-renderer", getRendererState fixtures mockFixtureState)] },
   TestNode.emitRendererResponse (getFixtureListResponse fixtures "bar-renderer")]

/-! ## Sample collaborators and inputs -/

/-- A concrete environment: the proxy delegate mounts one layer of its own,
the HTML builders return short marker strings. -/
def sampleEnv : Env :=
  { getPlaygroundHtml := fun _opts => "<html>playground</html>",
    getPlaygroundHtmlNext := fun opts =>
      match opts.rendererPreviewUrl with
      | JsValue.string url => "<html>next " ++ url ++ "</html>"
      | _ => "<html>next</html>",
    setupHttpProxy := fun app _httpProxy =>
      { stack := app.stack ++ [Layer.foreign (fun req => ([], some req))] },
    requireResolve := fun name => "/node_modules/" ++ name ++ "/index.js",
    join := fun dir file => dir ++ "/" ++ file,
    relative := fun _cwd path => path,
    dirname := "/srv/cosmos",
    cwd := "/srv" }

/-- A configuration with the next playground and a proxy object. -/
def sampleConfig : Config :=
  { next := JsValue.bool true, httpProxy := JsValue.object 1 }

/-- Playground options of the web platform. -/
def sampleWebOpts : PlaygroundOpts :=
  { platform := JsValue.string "web", loaderUri := JsValue.string "/_loader.html", others := [] }

/-- Playground options of the native platform. -/
def sampleNativeOpts : PlaygroundOpts :=
  { platform := JsValue.string "native", loaderUri := JsValue.undefined, others := [] }

/-- A GET request for the editor launcher that carries a file name and no
line number. -/
def sampleLaunchRequest : Request :=
  { method := "GET",
    path := "/__open-stack-frame-in-editor",
    query := [("fileName", JsValue.string "src/App.js")] }

/-- A plugin state in which `foo-renderer` is primary and `bar-renderer` has a
fixture state of its own. -/
def sampleTwoRenderers : PluginState :=
  { urlParams := { fixturePath := some "fixtures/zwei.js" },
    renderers :=
      { primaryRendererId := some "foo-renderer",
        renderers :=
          [("foo-renderer", { fixtures := [], fixtureState := JsValue.object 1 }),
           ("bar-renderer", { fixtures := [], fixtureState := JsValue.object 2 })] } }

/-- An environment like `sampleEnv` whose proxy delegate registers a GET route
of its own. -/
def routeAddingEnv : Env :=
  { sampleEnv with
    setupHttpProxy := fun app _httpProxy => app.get "/api" (fun _req => [Effect.send "api"]) }

/-- A host whose static root `/srv/public` is a directory that holds an
`index.html`, and which accepts no path with pattern syntax. -/
def sampleHost : Host :=
  { patternCompiles := fun _path => false,
    patternMatches := fun _pattern _path => false,
    mountRest := fun _mount _path => none,
    staticTarget := fun root urlPath => some (root ++ urlPath),
    join := fun dir file => dir ++ file,
    stat := fun path =>
      if path = "/srv/public/" then FileStat.directory
      else if path = "/srv/public/index.html" then FileStat.file
      else FileStat.missing }

/-- A GET request for the root directory. -/
def sampleDirectoryRequest : Request :=
  { method := "GET", path := "/", query := [] }

/-- An application that already has a GET route on the path of the editor
launcher. -/
def shadowedApp : App :=
  express.get "/__open-stack-frame-in-editor" (fun _req => [Effect.send "taken"])

/-- A plugin state whose primary renderer `foo-renderer` has no recorded state,
while `bar-renderer` has a fixture state. -/
def sampleOrphanPrimary : PluginState :=
  { urlParams := { fixturePath := some "fixtures/zwei.js" },
    renderers :=
      { primaryRendererId := some "foo-renderer",
        renderers := [("bar-renderer", { fixtures := [], fixtureState := JsValue.object 2 })] } }

/-! ## Theorems -/

/-- C1: `getRootUrl` returns `/` when `publicUrl` is exactly `./`, and
returns `publicUrl` itself unchanged for every other input. -/
theorem getRootUrl_spec (publicUrl : String) :
    (publicUrl = "./" → getRootUrl publicUrl = "/") ∧
    (publicUrl ≠ "./" → getRootUrl publicUrl = publicUrl) := by
  constructor
  · intro h
    simp [getRootUrl, h]
  · intro h
    simp [getRootUrl, h]

/-- Witness for C1 at `./` and at `/static/`. -/
theorem getRootUrl_spec_witness :
    getRootUrl "./" = "/" ∧ getRootUrl "/static/" = "/static/" :=
  ⟨(getRootUrl_spec "./").1 rfl, (getRootUrl_spec "/static/").2 (by decide)⟩

/-- C2 fails as stated: for the public URL `static/` the root URL is
`static/`, which does not begin with `/`. -/
theorem getRootUrl_not_always_rooted :
    getRootUrl "static/" = "static/" ∧ beginsWithSlash (getRootUrl "static/") = false := by
  constructor
  · decide
  · decide

/-- C2 (amended): the root URL begins with `/` exactly when `publicUrl` is
`./` or itself begins with `/`. -/
theorem getRootUrl_rooted_iff (publicUrl : String) :
    beginsWithSlash (getRootUrl publicUrl) = true ↔
      (publicUrl = "./" ∨ beginsWithSlash publicUrl = true) := by
  unfold getRootUrl
  by_cases h : publicUrl = "./"
  · subst h
    simp
    decide
  · simp [h]

/-! ### Auxiliary facts -/

theorem strictEqString_eq_true (v : JsValue) (lit : String) :
    v.strictEqString lit = true ↔ v = JsValue.string lit := by
  cases v <;> simp [JsValue.strictEqString]

theorem getRoutePaths_append (xs ys : List Layer) :
    getRoutePaths (xs ++ ys) = getRoutePaths xs ++ getRoutePaths ys := by
  induction xs with
  | nil => rfl
  | cons x xs ih =>
    cases x <;> simp [getRoutePaths, ih]

/-- The stack `createServerApp` returns: what the proxy setup left, followed
by the three routes. -/
theorem createServerApp_stack (env : Env) (cfg : Config) (opts : PlaygroundOpts) :
    ∃ html : String, ∃ h2 h3 : Request → List Effect,
      (createServerApp env cfg opts).app.stack =
        (if cfg.httpProxy.truthy then env.setupHttpProxy express cfg.httpProxy
          else express).stack ++
          [Layer.get "/" (fun _ => [Effect.send html]), Layer.get "/_playground.js" h2,
           Layer.get "/_cosmos.ico" h3] ∧
      html = (if cfg.next.truthy then
          env.getPlaygroundHtmlNext
            { rendererPreviewUrl :=
                if opts.platform.strictEqString "web" then opts.loaderUri else JsValue.null,
              enableRemoteRenderers := true }
        else env.getPlaygroundHtml opts) := by
  refine ⟨_, fun _ => [Effect.sendFile (env.requireResolve
      (if cfg.next.truthy then "react-cosmos-playground2" else "react-cosmos-playground"))],
    fun _ => [Effect.sendFile (env.join env.dirname "static/favicon.ico")], ?_, rfl⟩
  unfold createServerApp
  by_cases hp : cfg.httpProxy.truthy = true <;> by_cases hn : cfg.next.truthy = true <;>
    simp [hp, hn, App.get, List.append_assoc]

/-- The expectation of the test `posts "selectFixture" renderer request`: the
listener is called with a request for `foo-renderer`, the selected path and
`fixtureState: null`. -/
theorem testSelectFixture_expectation (fixtures : List String) :
    renderPlayground (testSelectFixture fixtures) =
      [RendererRequest.selectFixture
        { rendererId := "foo-renderer",
          fixturePath := "fixtures/zwei.js",
          fixtureState := JsValue.null }] := by
  rfl

/-- The expectation of the test `posts "selectFixture" renderer request with
fixture state of primary renderer`: the request names `bar-renderer` and
carries the fixture state of the primary `foo-renderer`. -/
theorem testSelectFixturePrimary_expectation (fixtures : List String)
    (mockFixtureState : JsValue) :
    renderPlayground (testSelectFixturePrimary fixtures mockFixtureState) =
      [RendererRequest.selectFixture
        { rendererId := "bar-renderer",
          fixturePath := "fixtures/zwei.js",
          fixtureState := mockFixtureState }] := by
  simp [renderPlayground, testSelectFixturePrimary, TestNode.apply, initialPluginState,
    handleRendererResponse, getFixtureListResponse, getRendererState, primaryFixtureState,
    List.lookup]

/-- A request through two stacks in a row: the second is reached only with
what the first passes on. -/
theorem runStack_append (host : Host) (xs ys : List Layer) (req : Request) :
    runStack host (xs ++ ys) req =
      match runStack host xs req with
      | (effects, none) => (effects, none)
      | (effects, some passed) =>
        (effects ++ (runStack host ys passed).1, (runStack host ys passed).2) := by
  induction xs generalizing req with
  | nil => simp [runStack]
  | cons x xs ih =>
    simp only [List.cons_append, runStack]
    rcases hx : x.run host req with ⟨effects, _ | passed⟩
    · simp
    · have h := ih passed
      rcases hxs : runStack host xs passed with ⟨more, _ | left⟩
      · rw [hxs] at h
        simp [h, hxs]
      · rw [hxs] at h
        simp [h, hxs]

/-- The static layer of `serveStaticDir` streams a file only when the request
path itself names one. -/
theorem serveStatic_disabled_file (host : Host) (root : String) (req : Request)
    (urlPath file : String) (effects : List Effect)
    (hrun : serveStatic host root { index := IndexOption.disabled } req urlPath = some effects)
    (hfile : Effect.staticFile file ∈ effects) :
    host.stat file = FileStat.file ∧ host.staticTarget root urlPath = some file := by
  unfold serveStatic at hrun
  by_cases hm : req.method ≠ "GET" ∧ req.method ≠ "HEAD"
  · simp [hm] at hrun
  · rw [if_neg hm] at hrun
    cases ht : host.staticTarget root urlPath with
    | none => simp [ht] at hrun
    | some target =>
      simp only [ht, indexNames, ne_eq, not_true_eq_false, false_and, if_false] at hrun
      cases hs : host.stat target with
      | file =>
        simp only [hs, Option.some.injEq] at hrun
        subst hrun
        simp only [List.mem_singleton, Effect.staticFile.injEq] at hfile
        subst hfile
        exact ⟨hs, rfl⟩
      | directory =>
        simp only [hs] at hrun
        by_cases hslash : hasTrailingSlash urlPath = true
        · simp [hslash] at hrun
        · simp only [hslash, Bool.false_eq_true, if_false, Option.some.injEq] at hrun
          subst hrun
          simp at hfile
      | missing => simp [hs] at hrun

/-- With the default `index` option the same middleware answers a request for
the root directory with the `index.html` found there. -/
theorem serveStatic_default_sends_index :
    (Layer.use "/" (Middleware.static "/srv/public" { index := IndexOption.default })).run
        sampleHost sampleDirectoryRequest =
      ([Effect.staticFile "/srv/public/index.html"], none) := by
  decide

/-! ### Claims -/

/-- C3 fails as stated: for an empty `publicPath` the call
`express.static(publicPath, ...)` throws, and `serveStaticDir` adds no
middleware to the app. -/
theorem serveStaticDir_empty_root_throws :
    (serveStaticDir sampleEnv sampleHost express "/" "").result =
      Except.error ServerError.rootPathRequired := by
  rfl

/-- C3 (amended): for a non-empty `publicPath` and a root URL Express accepts
as a mount path (`/`, the root URL of `./`, always is), `serveStaticDir` adds
exactly one middleware after everything registered before: a static-file
handler rooted at `publicPath`, mounted at `getRootUrl(publicUrl)`, with
`index: false`; otherwise it throws and adds nothing.  The handler streams a
file only when the request path itself names a file, never the `index.html` of
a requested directory, and passes a request for a directory (path ending in
`/`) on to the layers after it. -/
theorem serveStaticDir_adds_static_layer (env : Env) (host : Host) (app : App)
    (publicUrl publicPath : String) :
    (publicPath ≠ "" → pathCompiles host (getRootUrl publicUrl) = true →
      (serveStaticDir env host app publicUrl publicPath).result =
        Except.ok { stack := app.stack ++ [Layer.use (getRootUrl publicUrl)
          (Middleware.static publicPath { index := IndexOption.disabled })] }) ∧
    (publicPath ≠ "" →
      (serveStaticDir env host app "./" publicPath).result =
        Except.ok { stack := app.stack ++ [Layer.use "/"
          (Middleware.static publicPath { index := IndexOption.disabled })] }) ∧
    (publicPath = "" →
      (serveStaticDir env host app publicUrl publicPath).result =
        Except.error ServerError.rootPathRequired) ∧
    (publicPath ≠ "" → pathCompiles host (getRootUrl publicUrl) = false →
      (serveStaticDir env host app publicUrl publicPath).result =
        Except.error (ServerError.invalidPath (getRootUrl publicUrl))) ∧
    (∀ (req : Request) (file : String),
      Effect.staticFile file ∈ ((Layer.use (getRootUrl publicUrl)
          (Middleware.static publicPath { index := IndexOption.disabled })).run host req).1 →
      host.stat file = FileStat.file ∧
        ∃ rest : String, mountRest host (getRootUrl publicUrl) req.path = some rest ∧
          host.staticTarget publicPath rest = some file) ∧
    (∀ (req : Request) (rest directory : String),
      mountRest host (getRootUrl publicUrl) req.path = some rest →
      host.staticTarget publicPath rest = some directory →
      host.stat directory = FileStat.directory →
      hasTrailingSlash rest = true →
      (Layer.use (getRootUrl publicUrl)
          (Middleware.static publicPath { index := IndexOption.disabled })).run host req =
        ([], some req)) := by
  refine ⟨?_, ?_, ?_, ?_, ?_, ?_⟩
  · intro hroot hmount
    simp [serveStaticDir, expressStatic, hroot, App.use, hmount]
  · intro hroot
    have hmount : pathCompiles host "/" = true := by
      simp only [pathCompiles, Bool.or_eq_true]
      exact Or.inl (by decide)
    have hurl : getRootUrl "./" = "/" := by decide
    simp [serveStaticDir, expressStatic, hroot, App.use, hurl, hmount]
  · intro hroot
    simp [serveStaticDir, expressStatic, hroot]
  · intro hroot hmount
    simp [serveStaticDir, expressStatic, hroot, App.use, hmount]
  · intro req file hmem
    simp only [Layer.run] at hmem
    cases hrest : mountRest host (getRootUrl publicUrl) req.path with
    | none => simp [hrest] at hmem
    | some rest =>
      simp only [hrest] at hmem
      cases hserve : serveStatic host publicPath { index := IndexOption.disabled } req rest with
      | none => simp [hserve] at hmem
      | some effects =>
        simp only [hserve] at hmem
        obtain ⟨hstat, htarget⟩ :=
          serveStatic_disabled_file host publicPath req rest file effects hserve hmem
        exact ⟨hstat, rest, rfl, htarget⟩
  · intro req rest directory hrest htarget hstat hslash
    simp only [Layer.run, hrest]
    have hserve : serveStatic host publicPath { index := IndexOption.disabled } req rest = none := by
      unfold serveStatic
      by_cases hm : req.method ≠ "GET" ∧ req.method ≠ "HEAD"
      · simp [hm]
      · simp [hm, htarget, indexNames, hstat, hslash]
    simp [hserve]

/-- Witness for C3: the layer added for `./` on a new application, the two
exceptions, and a request for the root directory, which the added layer
passes on although `/srv/public/index.html` exists. -/
theorem serveStaticDir_adds_static_layer_witness :
    (serveStaticDir sampleEnv sampleHost express "./" "/srv/public").result =
        Except.ok { stack := express.stack ++ [Layer.use "/"
          (Middleware.static "/srv/public" { index := IndexOption.disabled })] } ∧
    (serveStaticDir sampleEnv sampleHost express "/static" "").result =
        Except.error ServerError.rootPathRequired ∧
    (serveStaticDir sampleEnv sampleHost express "/(" "/srv/public").result =
        Except.error (ServerError.invalidPath (getRootUrl "/(")) ∧
    (Layer.use (getRootUrl "/")
        (Middleware.static "/srv/public" { index := IndexOption.disabled })).run
        sampleHost sampleDirectoryRequest = ([], some sampleDirectoryRequest) :=
  ⟨(serveStaticDir_adds_static_layer sampleEnv sampleHost express "./" "/srv/public").2.1
      (by decide),
    (serveStaticDir_adds_static_layer sampleEnv sampleHost express "/static" "").2.2.1 rfl,
    (serveStaticDir_adds_static_layer sampleEnv sampleHost express "/(" "/srv/public").2.2.2.1
      (by decide) (by decide),
    (serveStaticDir_adds_static_layer sampleEnv sampleHost express "/" "/srv/public").2.2.2.2.2
      sampleDirectoryRequest "/" "/srv/public/" (by decide) (by decide) (by decide) (by decide)⟩

/-- C6 fails as stated: on an application that already has a GET route for
`/__open-stack-frame-in-editor`, a GET request for that path is answered by
the earlier route, and `launchEditor` is not called. -/
theorem attachStackFrameEditorLauncher_shadowed :
    App.handle sampleHost (attachStackFrameEditorLauncher shadowedApp) sampleLaunchRequest =
      ([Effect.send "taken"], none) := by
  decide

/-- C6 (amended): after `attachStackFrameEditorLauncher(app)`, a GET request to
`/__open-stack-frame-in-editor` that the layers registered before pass on
untouched, as every request to a new application is, invokes `launchEditor`
once with `req.query.fileName` and `req.query.lineNumber`, in that order and
as they are (`undefined` when absent), and then ends the response with no
body; a request an earlier layer answers does not reach the launcher. -/
theorem attachStackFrameEditorLauncher_launches (host : Host) (app : App) (req : Request)
    (hmethod : req.method = "GET") (hpath : req.path = "/__open-stack-frame-in-editor") :
    (App.handle host app req = ([], some req) →
      App.handle host (attachStackFrameEditorLauncher app) req =
        ([Effect.launchEditor (req.queryParam "fileName") (req.queryParam "lineNumber"),
          Effect.endResponse none], none)) ∧
    App.handle host (attachStackFrameEditorLauncher express) req =
        ([Effect.launchEditor (req.queryParam "fileName") (req.queryParam "lineNumber"),
          Effect.endResponse none], none) ∧
    (∀ answer : List Effect, App.handle host app req = (answer, none) →
      App.handle host (attachStackFrameEditorLauncher app) req = (answer, none)) := by
  have hroute : handlesGet req.method = true ∧
      routeMatches host "/__open-stack-frame-in-editor" req.path = true := by
    rw [hmethod, hpath]
    constructor
    · decide
    · have hlit : isLiteralPath "/__open-stack-frame-in-editor" = true := by decide
      simp only [routeMatches, hlit, if_true]
      decide
  refine ⟨?_, ?_, ?_⟩
  · intro hpassed
    simp only [App.handle] at hpassed
    simp [App.handle, attachStackFrameEditorLauncher, App.get, runStack_append, hpassed,
      runStack, Layer.run, hroute.1, hroute.2]
  · simp [App.handle, attachStackFrameEditorLauncher, App.get, express, runStack, Layer.run,
      hroute.1, hroute.2]
  · intro answer hanswered
    simp only [App.handle] at hanswered
    simp [App.handle, attachStackFrameEditorLauncher, App.get, runStack_append, hanswered]

/-- Witness for C6: a request with a file name and no line number, on a new
application. -/
theorem attachStackFrameEditorLauncher_launches_witness :
    App.handle sampleHost (attachStackFrameEditorLauncher express) sampleLaunchRequest =
      ([Effect.launchEditor (sampleLaunchRequest.queryParam "fileName")
          (sampleLaunchRequest.queryParam "lineNumber"),
        Effect.endResponse none], none) ∧
    sampleLaunchRequest.queryParam "fileName" = JsValue.string "src/App.js" ∧
    sampleLaunchRequest.queryParam "lineNumber" = JsValue.undefined :=
  ⟨(attachStackFrameEditorLauncher_launches sampleHost express sampleLaunchRequest rfl rfl).1
      rfl,
    by decide, by decide⟩

/-- C7 fails as stated: with a proxy delegate that registers a GET route, the
application has four GET routes after `createServerApp`. -/
theorem createServerApp_delegate_route_kept :
    getRoutePaths (createServerApp routeAddingEnv sampleConfig sampleWebOpts).app.stack =
      ["/api", "/", "/_playground.js", "/_cosmos.ico"] := by
  rfl

/-- C7 (amended): `createServerApp` calls `setupHttpProxy(app, httpProxy)`
exactly when `cosmosConfig.httpProxy` is truthy, then once and on the
application that has nothing registered yet; after that it registers the GET
routes `/`, `/_playground.js` and `/_cosmos.ico`, in that order, so that the
GET routes of the application are those the delegate registered (none when
`httpProxy` is falsy) followed by exactly these three. -/
theorem createServerApp_proxy_then_routes (env : Env) (cfg : Config) (opts : PlaygroundOpts) :
    ((createServerApp env cfg opts).calls.filterMap Call.proxySetup? =
        if cfg.httpProxy.truthy then [(express, cfg.httpProxy)] else []) ∧
    (∃ h1 h2 h3 : Request → List Effect,
      (createServerApp env cfg opts).app.stack =
        (if cfg.httpProxy.truthy then env.setupHttpProxy express cfg.httpProxy
          else express).stack ++
          [Layer.get "/" h1, Layer.get "/_playground.js" h2, Layer.get "/_cosmos.ico" h3]) ∧
    getRoutePaths (createServerApp env cfg opts).app.stack =
      (if cfg.httpProxy.truthy then
          getRoutePaths (env.setupHttpProxy express cfg.httpProxy).stack
        else []) ++ ["/", "/_playground.js", "/_cosmos.ico"] := by
  obtain ⟨html, h2, h3, hstack, _⟩ := createServerApp_stack env cfg opts
  refine ⟨?_, ⟨_, h2, h3, hstack⟩, ?_⟩
  · unfold createServerApp
    by_cases hp : cfg.httpProxy.truthy = true <;> by_cases hn : cfg.next.truthy = true <;>
      simp [hp, hn, Call.proxySetup?]
  · rw [hstack, getRoutePaths_append]
    by_cases hp : cfg.httpProxy.truthy = true
    · simp [hp, getRoutePaths]
    · simp [hp, express, getRoutePaths]

/-- C8: the route `createServerApp` registers for `/` sends, for every
request, one and the same HTML, computed by a single call while the
application is created: `getPlaygroundHtml(playgroundOpts)` when
`cosmosConfig.next` is falsy, otherwise `getPlaygroundHtmlNext` with
`enableRemoteRenderers: true` and `rendererPreviewUrl` equal to
`playgroundOpts.loaderUri` when the platform is `web` and to `null` for any
other platform. -/
theorem createServerApp_playgroundHtml (env : Env) (cfg : Config) (opts : PlaygroundOpts) :
    ∃ (html : String) (h1 h2 h3 : Request → List Effect),
      (createServerApp env cfg opts).app.stack =
        (if cfg.httpProxy.truthy then env.setupHttpProxy express cfg.httpProxy
          else express).stack ++
          [Layer.get "/" h1, Layer.get "/_playground.js" h2, Layer.get "/_cosmos.ico" h3] ∧
      (∀ req : Request, h1 req = [Effect.send html]) ∧
      html = (if cfg.next.truthy = true then
          env.getPlaygroundHtmlNext
            { rendererPreviewUrl :=
                if opts.platform = JsValue.string "web" then opts.loaderUri else JsValue.null,
              enableRemoteRenderers := true }
        else env.getPlaygroundHtml opts) ∧
      ((createServerApp env cfg opts).calls.filter Call.isPlaygroundHtml).length = 1 := by
  obtain ⟨html, h2, h3, hstack, hhtml⟩ := createServerApp_stack env cfg opts
  refine ⟨html, _, h2, h3, hstack, fun _ => rfl, ?_, ?_⟩
  · rw [hhtml]
    by_cases hw : opts.platform = JsValue.string "web"
    · simp [hw, JsValue.strictEqString]
    · have hs : opts.platform.strictEqString "web" = false := by
        cases hb : opts.platform.strictEqString "web"
        · rfl
        · exact absurd ((strictEqString_eq_true _ _).1 hb) hw
      simp [hw, hs]
  · unfold createServerApp
    by_cases hp : cfg.httpProxy.truthy = true <;> by_cases hn : cfg.next.truthy = true <;>
      simp [hp, hn, Call.isPlaygroundHtml]

/-- C4: while a fixture path `p` is selected in `urlParams`, a fixture-list
response from renderer `r` makes the plugin post one `selectFixture` request
whose payload names `r` as `rendererId` and `p` as `fixturePath`, whichever
renderer is primary. -/
theorem selectFixture_posted (state : PluginState) (r : String) (fixtures : List String)
    (p : String) (hselected : state.urlParams.fixturePath = some p) :
    ∃ payload : SelectFixturePayload,
      handleRendererResponse state (RendererResponse.fixtureList r fixtures) =
        [RendererRequest.selectFixture payload] ∧
      payload.rendererId = r ∧ payload.fixturePath = p := by
  refine ⟨⟨r, p, primaryFixtureState state.renderers⟩, ?_, rfl, rfl⟩
  simp [handleRendererResponse, hselected]

/-- Witness for C4: `bar-renderer` responds while `foo-renderer` is primary. -/
theorem selectFixture_posted_witness :
    ∃ payload : SelectFixturePayload,
      handleRendererResponse sampleTwoRenderers (RendererResponse.fixtureList "bar-renderer" []) =
        [RendererRequest.selectFixture payload] ∧
      payload.rendererId = "bar-renderer" ∧ payload.fixturePath = "fixtures/zwei.js" :=
  selectFixture_posted sampleTwoRenderers "bar-renderer" [] "fixtures/zwei.js" rfl

/-- C5: in that `selectFixture` request, `fixtureState` is the fixture state
recorded for the primary renderer and `null` when there is no primary renderer
or nothing recorded for it; it is the same whichever renderer responds and
whatever is recorded for the renderers other than the primary one. -/
theorem selectFixture_fixtureState (state : PluginState) (r : String) (fixtures : List String)
    (p : String) (hselected : state.urlParams.fixturePath = some p) :
    ∃ payload : SelectFixturePayload,
      handleRendererResponse state (RendererResponse.fixtureList r fixtures) =
        [RendererRequest.selectFixture payload] ∧
      (∀ (primary : String) (recorded : RendererItemState),
        state.renderers.primaryRendererId = some primary →
        state.renderers.renderers.lookup primary = some recorded →
        payload.fixtureState = recorded.fixtureState) ∧
      (state.renderers.renderers = [] → payload.fixtureState = JsValue.null) ∧
      (state.renderers.primaryRendererId = none → payload.fixtureState = JsValue.null) ∧
      (∀ primary : String,
        state.renderers.primaryRendererId = some primary →
        state.renderers.renderers.lookup primary = none →
        payload.fixtureState = JsValue.null) ∧
      (∀ (responder : String) (listed : List String) (others : List (String × RendererItemState)),
        (∀ primary : String, state.renderers.primaryRendererId = some primary →
          others.lookup primary = state.renderers.renderers.lookup primary) →
        handleRendererResponse
            { state with renderers := { state.renderers with renderers := others } }
            (RendererResponse.fixtureList responder listed) =
          [RendererRequest.selectFixture { payload with rendererId := responder }]) := by
  refine ⟨⟨r, p, primaryFixtureState state.renderers⟩, ?_, ?_, ?_, ?_, ?_, ?_⟩
  · simp [handleRendererResponse, hselected]
  · intro primary recorded hprimary hrecorded
    simp [primaryFixtureState, hprimary, hrecorded]
  · intro hempty
    cases hprimary : state.renderers.primaryRendererId <;>
      simp [primaryFixtureState, hprimary, hempty]
  · intro hprimary
    simp [primaryFixtureState, hprimary]
  · intro primary hprimary hmissing
    simp [primaryFixtureState, hprimary, hmissing]
  · intro responder listed others hsame
    cases hprimary : state.renderers.primaryRendererId with
    | none => simp [handleRendererResponse, hselected, primaryFixtureState, hprimary]
    | some primary =>
      simp [handleRendererResponse, hselected, primaryFixtureState, hprimary,
        hsame primary hprimary]

/-- Witness for C5: `bar-renderer`, which has a fixture state of its own,
responds while `foo-renderer` is primary, and the request carries the fixture
state of `foo-renderer`; with nothing recorded, or nothing recorded for the
primary renderer, the request carries `null`. -/
theorem selectFixture_fixtureState_witness :
    (∃ payload : SelectFixturePayload,
      handleRendererResponse sampleTwoRenderers (RendererResponse.fixtureList "bar-renderer" []) =
        [RendererRequest.selectFixture payload] ∧
      payload.fixtureState = JsValue.object 1) ∧
    (∃ payload : SelectFixturePayload,
      handleRendererResponse
          { initialPluginState with urlParams := { fixturePath := some "fixtures/zwei.js" } }
          (RendererResponse.fixtureList "foo-renderer" []) =
        [RendererRequest.selectFixture payload] ∧
      payload.fixtureState = JsValue.null) ∧
    (∃ payload : SelectFixturePayload,
      handleRendererResponse sampleOrphanPrimary (RendererResponse.fixtureList "bar-renderer" []) =
        [RendererRequest.selectFixture payload] ∧
      payload.fixtureState = JsValue.null ∧
      handleRendererResponse
          { sampleOrphanPrimary with
            renderers := { sampleOrphanPrimary.renderers with renderers := [] } }
          (RendererResponse.fixtureList "bar-renderer" []) =
        [RendererRequest.selectFixture { payload with rendererId := "bar-renderer" }]) := by
  refine ⟨?_, ?_, ?_⟩
  · obtain ⟨payload, hposted, hprimary, _⟩ :=
      selectFixture_fixtureState sampleTwoRenderers "bar-renderer" [] "fixtures/zwei.js" rfl
    exact ⟨payload, hposted, hprimary "foo-renderer"
      { fixtures := [], fixtureState := JsValue.object 1 } rfl (by decide)⟩
  · obtain ⟨payload, hposted, _, hempty, _⟩ :=
      selectFixture_fixtureState
        { initialPluginState with urlParams := { fixturePath := some "fixtures/zwei.js" } }
        "foo-renderer" [] "fixtures/zwei.js" rfl
    exact ⟨payload, hposted, hempty rfl⟩
  · obtain ⟨payload, hposted, _, _, _, hmissing, hsame⟩ :=
      selectFixture_fixtureState sampleOrphanPrimary "bar-renderer" [] "fixtures/zwei.js" rfl
    refine ⟨payload, hposted, hmissing "foo-renderer" rfl (by decide),
      hsame "bar-renderer" [] [] ?_⟩
    intro primary hprimary
    have hfoo : primary = "foo-renderer" := by
      have h : some primary = some "foo-renderer" := hprimary.symm.trans rfl
      exact Option.some.inj h
    subst hfoo
    decide

end Cosmos
